import Mathlib

/-!
# Verification of the localume semantic file-index core

Shallow embedding of the core components of the repository:

* `VectorStore` (src/core/embeddings/vector_store.py) — FAISS `IndexIDMap`
  over `IndexFlatL2` plus a Python-dict id→metadata map, with write-through
  persistence of the id map.
* `FileScanner` (src/core/scanner/file_scanner.py) — directory scanning and
  single-file scanning.
* `FileSystemMonitor.EventHandler` (src/core/scanner/monitor.py) — the
  debounce logic of `on_modified`.
* `SearchEngine` (src/core/search/search_engine.py) — query orchestration.

Modelling conventions:
* vectors are `List ℚ` (numpy float32 vectors; exact rationals stand in for
  floats — only lengths and exact L2 comparisons are used by the claims);
* Python `Dict[str, Any]` metadata is `Metadata := List (String × String)`
  with Python-dict insertion/update semantics; the empty dict `{}` is `[]`;
* the FAISS `IndexIDMap` is the list of `(id, vector)` pairs in insertion
  order; `add_with_ids` appends (FAISS does not deduplicate ids),
  `remove_ids` removes every entry carrying the id, `ntotal` is the length;
* `IndexFlatL2.search` is exact squared-L2 k-nearest-neighbour search:
  results sorted by ascending distance, ties in the internal sequence
  (insertion) order; FAISS pads missing results with id `-1`, which the
  Python wrapper filters out again, so padding is omitted from the model;
* exceptions are `Except` values; persistence I/O is modelled as always
  succeeding (disk contents are tracked so that write-through is visible).
-/

/-- Python `Dict[str, Any]` metadata dictionaries, as association lists. -/
abbrev Metadata := List (String × String)

/-- Association-list lookup with Python-dict semantics (first binding wins;
a well-formed dict has at most one binding per key). -/
def mapLookup (k : Int) : List (Int × Metadata) → Option Metadata
  | [] => none
  | (k', v) :: rest => if k' = k then some v else mapLookup k rest

/-- Python-dict assignment `m[k] = v`: update in place if the key is
present, append otherwise. -/
def mapInsert (k : Int) (v : Metadata) : List (Int × Metadata) → List (Int × Metadata)
  | [] => [(k, v)]
  | (k', v') :: rest =>
      if k' = k then (k, v) :: rest else (k', v') :: mapInsert k v rest

/-- Python-dict `m.pop(k)`: drop the binding for `k`. -/
def mapErase (k : Int) (m : List (Int × Metadata)) : List (Int × Metadata) :=
  m.filter (fun p => p.1 ≠ k)

/-- Keys of an association list (`m.keys()` / `k in m`). -/
def mapKeys (m : List (Int × Metadata)) : List Int :=
  m.map Prod.fst

/-- Errors raised by `VectorStore` operations.  The Python code raises
`RuntimeError`s whose message records the failure; the only failure that is
reachable in this model (persistence always succeeds) is the dimension
check of `add_embedding` / `search`. -/
inductive VSError where
  | dimensionMismatch : VSError
  deriving Repr, DecidableEq

/-- State of `VectorStore` (src/core/embeddings/vector_store.py).

`entries` is the FAISS `IndexIDMap` content in insertion order;
`id_map` is the in-memory Python dict; `disk_id_map` is what
`save_id_map` last pickled to `id_map_path`. -/
structure VectorStore where
  dimension : Nat
  entries : List (Int × List ℚ)
  id_map : List (Int × Metadata)
  disk_id_map : List (Int × Metadata)
  deriving Repr, DecidableEq

namespace VectorStore

/-- A freshly constructed empty store (`_create_new_store` writes the empty
index and the empty id map to disk immediately). -/
def empty (dimension : Nat) : VectorStore :=
  { dimension := dimension, entries := [], id_map := [], disk_id_map := [] }

/-- `check_embedding_exists`: `unique_id in self.id_map`. -/
def check_embedding_exists (s : VectorStore) (unique_id : Int) : Bool :=
  unique_id ∈ mapKeys s.id_map

/-- `save_id_map`: pickle the in-memory id map to disk (write-through). -/
def save_id_map (s : VectorStore) : VectorStore :=
  { s with disk_id_map := s.id_map }

/-- `add_embedding(vector, metadata, unique_id)`:
reshape to `(1, n)` and compare `n` with the index dimension, raising on
mismatch *before* touching any state; on success `index.add_with_ids`
appends the `(id, vector)` pair (FAISS does not replace an existing id),
the metadata is stored under the id, and the id map is saved. -/
def add_embedding (s : VectorStore) (vector : List ℚ) (metadata : Metadata)
    (unique_id : Int) : Except VSError VectorStore :=
  if vector.length ≠ s.dimension then
    .error .dimensionMismatch
  else
    .ok (save_id_map
      { s with
        entries := s.entries ++ [(unique_id, vector)],
        id_map := mapInsert unique_id metadata s.id_map })

/-- `remove_embedding(unique_id)`: no-op when the id is absent from the id
map; otherwise `index.remove_ids` drops every FAISS entry carrying the id,
the id map entry is popped, and the id map is saved. -/
def remove_embedding (s : VectorStore) (unique_id : Int) : VectorStore :=
  if check_embedding_exists s unique_id then
    save_id_map
      { s with
        entries := s.entries.filter (fun e => e.1 ≠ unique_id),
        id_map := mapErase unique_id s.id_map }
  else
    s

/-- `is_empty`: `index.ntotal == 0`. -/
def is_empty (s : VectorStore) : Bool :=
  s.entries.length = 0

/-- `get_total_count`: `index.ntotal` (every added vector counts, including
duplicate ids). -/
def get_total_count (s : VectorStore) : Nat :=
  s.entries.length

/-- Squared L2 distance, the metric of `IndexFlatL2`.  (Lengths always
agree where this is used; zipWith truncates harmlessly otherwise.) -/
def sqDist (u v : List ℚ) : ℚ :=
  ((List.zipWith (fun a b => (a - b) * (a - b)) u v).foldr (· + ·) 0)

/-- One FAISS hit: squared distance and stored id. -/
abbrev Hit := ℚ × Int

/-- Insert a hit into a distance-sorted list, before the first
strictly-greater entry — the classic stable insertion. -/
def insHit (x : Hit) : List Hit → List Hit
  | [] => [x]
  | y :: ys => if x.1 ≤ y.1 then x :: y :: ys else y :: insHit x ys

/-- Stable sort of hits by ascending distance: equal distances keep the
underlying (insertion) order, which is the order `IndexFlatL2` reports. -/
def sortHits : List Hit → List Hit
  | [] => []
  | x :: xs => insHit x (sortHits xs)

/-- A single search result (`SearchResult` dataclass). -/
structure SearchResult where
  metadata : Metadata
  distance : ℚ
  unique_id : Int
  deriving Repr, DecidableEq

/-- The result list built by `search` once the dimension check has passed:
`index.search` returns the `top_k` nearest entries sorted by ascending
distance (FAISS pads with id `-1` when fewer exist), and the wrapper keeps
those whose id is not `-1` and has metadata in the id map. -/
def searchResults (s : VectorStore) (query_vector : List ℚ) (top_k : Nat) :
    List SearchResult :=
  ((((sortHits
      (s.entries.map (fun e => ((sqDist query_vector e.2 : ℚ), e.1)))).take
        top_k).filter
      (fun h => h.2 ≠ -1 && (mapKeys s.id_map).contains h.2)).filterMap
    (fun h => (mapLookup h.2 s.id_map).map
      (fun md => ⟨md, h.1, h.2⟩)))

/-- `search(query_vector, top_k)`: raise on dimension mismatch; otherwise
collect the filtered FAISS nearest-neighbour hits. -/
def search (s : VectorStore) (query_vector : List ℚ) (top_k : Nat) :
    Except VSError (List SearchResult) :=
  if query_vector.length ≠ s.dimension then
    .error .dimensionMismatch
  else
    .ok (searchResults s query_vector top_k)

end VectorStore

/-- A mutating client call on a `VectorStore`. -/
inductive VSOp where
  | add (unique_id : Int) (vector : List ℚ) (metadata : Metadata)
  | remove (unique_id : Int)
  deriving Repr

/-- Run one operation.  A raised exception leaves the Python object exactly
as it was (both raise sites precede any mutation), so the error case keeps
the state. -/
def applyOp (s : VectorStore) : VSOp → VectorStore
  | .add id v m =>
      match s.add_embedding v m id with
      | .ok s' => s'
      | .error _ => s
  | .remove id => s.remove_embedding id

/-- Run a sequence of operations from left to right. -/
def applyOps (s : VectorStore) (ops : List VSOp) : VectorStore :=
  ops.foldl applyOp s

/-- Ids currently present in the FAISS `IndexIDMap`, with multiplicity. -/
def annIds (s : VectorStore) : List Int :=
  s.entries.map Prod.fst

/-- The id sets of the ANN structure and of the id map coincide. -/
def InSync (s : VectorStore) : Prop :=
  ∀ id : Int, id ∈ annIds s ↔ id ∈ mapKeys s.id_map

section MapLemmas

theorem mem_mapKeys_mapInsert (j k : Int) (v : Metadata)
    (m : List (Int × Metadata)) :
    j ∈ mapKeys (mapInsert k v m) ↔ j = k ∨ j ∈ mapKeys m := by
  induction m with
  | nil => simp [mapInsert, mapKeys]
  | cons hd tl ih =>
    obtain ⟨k', v'⟩ := hd
    by_cases hk : k' = k
    · subst hk
      simp [mapInsert, mapKeys]
    · simp only [mapInsert, if_neg hk, mapKeys, List.map_cons, List.mem_cons]
      simp only [mapKeys] at ih
      rw [ih]
      tauto

theorem mem_mapKeys_mapErase (j k : Int) (m : List (Int × Metadata)) :
    j ∈ mapKeys (mapErase k m) ↔ j ∈ mapKeys m ∧ j ≠ k := by
  simp only [mapKeys, mapErase, List.mem_map, List.mem_filter]
  constructor
  · rintro ⟨p, ⟨hp, hne⟩, rfl⟩
    exact ⟨⟨p, hp, rfl⟩, by simpa using hne⟩
  · rintro ⟨⟨p, hp, rfl⟩, hne⟩
    exact ⟨p, ⟨hp, by simpa using hne⟩, rfl⟩

theorem mem_map_fst_filter_ne (j k : Int) (l : List (Int × List ℚ)) :
    j ∈ (l.filter (fun e => e.1 ≠ k)).map Prod.fst ↔
      j ∈ l.map Prod.fst ∧ j ≠ k := by
  simp only [List.mem_map, List.mem_filter]
  constructor
  · rintro ⟨p, ⟨hp, hne⟩, rfl⟩
    exact ⟨⟨p, hp, rfl⟩, by simpa using hne⟩
  · rintro ⟨⟨p, hp, rfl⟩, hne⟩
    exact ⟨p, ⟨hp, by simpa using hne⟩, rfl⟩

theorem mapLookup_mapInsert_self (k : Int) (v : Metadata)
    (m : List (Int × Metadata)) :
    mapLookup k (mapInsert k v m) = some v := by
  induction m with
  | nil => simp [mapInsert, mapLookup]
  | cons hd tl ih =>
    obtain ⟨k', v'⟩ := hd
    by_cases hk : k' = k
    · subst hk
      simp [mapInsert, mapLookup]
    · simp [mapInsert, if_neg hk, mapLookup, hk, ih]

end MapLemmas

namespace VectorStore

theorem insync_applyOp (s : VectorStore) (h : InSync s) (op : VSOp) :
    InSync (applyOp s op) := by
  cases op with
  | add id v m =>
    by_cases hv : v.length ≠ s.dimension
    · simpa [applyOp, add_embedding, hv] using h
    · intro j
      have hj := h j
      simp only [annIds, mapKeys] at hj ⊢
      simp only [applyOp, add_embedding, if_neg hv, save_id_map,
        List.map_append, List.mem_append, List.map_cons, List.map_nil,
        List.mem_singleton]
      have hins := mem_mapKeys_mapInsert j id m s.id_map
      simp only [mapKeys] at hins
      rw [hins]
      tauto
  | remove id =>
    simp only [applyOp, remove_embedding]
    split
    · intro j
      have hj := h j
      simp only [annIds, mapKeys] at hj ⊢
      simp only [save_id_map]
      rw [mem_map_fst_filter_ne]
      have her := mem_mapKeys_mapErase j id s.id_map
      simp only [mapKeys] at her
      rw [her]
      rw [hj]
    · exact h

theorem insync_applyOps (ops : List VSOp) (s : VectorStore) (h : InSync s) :
    InSync (applyOps s ops) := by
  induction ops generalizing s with
  | nil => exact h
  | cons op rest ih => exact ih (applyOp s op) (insync_applyOp s h op)

end VectorStore

/-- C1 counterexample: re-adding id 1 leaves the FAISS structure holding
*two* entries for id 1 (`add_with_ids` appends without deduplicating)
while the id map holds one, so "exactly one ANN entry per id" is false
after the operation sequence `[add 1, add 1]` on an empty store. -/
theorem C1_one_entry_per_id_counterexample :
    (applyOps (VectorStore.empty 1)
        [VSOp.add 1 [0] [], VSOp.add 1 [0] []]).entries.countP
        (fun e => e.1 == 1) = 2 ∧
    mapKeys (applyOps (VectorStore.empty 1)
        [VSOp.add 1 [0] [], VSOp.add 1 [0] []]).id_map = [1] := by
  constructor <;> rfl

/-- C1 (amended): after any sequence of add and remove operations on an
initially empty `VectorStore`, the *set* of ids present in the ANN
structure equals the set of keys of the id map (neither is updated
without the other); multiplicity, however, is not one — a re-added id
occupies several ANN entries. -/
theorem C1_ann_ids_match_map_keys (d : Nat) (ops : List VSOp) :
    ∀ id : Int, id ∈ annIds (applyOps (VectorStore.empty d) ops) ↔
      id ∈ mapKeys (applyOps (VectorStore.empty d) ops).id_map :=
  VectorStore.insync_applyOps ops (VectorStore.empty d)
    (fun id => by simp [annIds, mapKeys, VectorStore.empty])

/-- C2 counterexample: adding id 1 to an empty store and then re-adding it
leaves `get_total_count` at 2 (the claim says count is unchanged, i.e. 1)
and the ANN structure holding two entries for id 1 (the claim says exactly
one, via remove-then-add — which `add_embedding` does not perform). -/
theorem C2_re_add_counterexample :
    (applyOps (VectorStore.empty 1)
        [VSOp.add 1 [0] [("a", "1")]]).get_total_count = 1 ∧
    (applyOps (VectorStore.empty 1)
        [VSOp.add 1 [0] [("a", "1")],
         VSOp.add 1 [1] [("b", "2")]]).get_total_count = 2 ∧
    (applyOps (VectorStore.empty 1)
        [VSOp.add 1 [0] [("a", "1")],
         VSOp.add 1 [1] [("b", "2")]]).entries.countP
        (fun e => e.1 == 1) = 2 := by
  refine ⟨rfl, rfl, rfl⟩

/-- C2 (amended): re-adding an existing id via `add_embedding` succeeds and
replaces the stored metadata (last writer wins in the id map), but the old
ANN entry is *not* removed first: `count()` grows by one and the ANN
structure gains a second entry for the id.  (The remove-then-add that
deduplicates ids lives in the caller, `FileScanner.scan_file`, not in
`add_embedding`.) -/
theorem C2_re_add_keeps_old_ann_entry (s : VectorStore) (id : Int)
    (v : List ℚ) (m : Metadata)
    (hex : s.check_embedding_exists id = true)
    (hlen : v.length = s.dimension) :
    ∃ s', s.add_embedding v m id = .ok s' ∧
      mapLookup id s'.id_map = some m ∧
      s'.get_total_count = s.get_total_count + 1 ∧
      s'.entries.countP (fun e => e.1 == id) =
        s.entries.countP (fun e => e.1 == id) + 1 := by
  have hne : ¬ v.length ≠ s.dimension := by simp [hlen]
  refine ⟨VectorStore.save_id_map
      { s with entries := s.entries ++ [(id, v)],
               id_map := mapInsert id m s.id_map }, ?_, ?_, ?_, ?_⟩
  · simp only [VectorStore.add_embedding, if_neg hne]
  · exact mapLookup_mapInsert_self id m s.id_map
  · simp [VectorStore.get_total_count, VectorStore.save_id_map]
  · simp [VectorStore.save_id_map, List.countP_append, List.countP_cons]

/-- Witness for `C2_re_add_keeps_old_ann_entry` at a store containing id 1. -/
theorem C2_re_add_keeps_old_ann_entry_witness :
    ∃ s', (applyOps (VectorStore.empty 1)
        [VSOp.add 1 [0] [("a", "1")]]).add_embedding [1] [("b", "2")] 1 =
          .ok s' ∧
      mapLookup 1 s'.id_map = some [("b", "2")] ∧
      s'.get_total_count =
        (applyOps (VectorStore.empty 1)
          [VSOp.add 1 [0] [("a", "1")]]).get_total_count + 1 ∧
      s'.entries.countP (fun e => e.1 == 1) =
        (applyOps (VectorStore.empty 1)
          [VSOp.add 1 [0] [("a", "1")]]).entries.countP
          (fun e => e.1 == 1) + 1 :=
  C2_re_add_keeps_old_ann_entry
    (applyOps (VectorStore.empty 1) [VSOp.add 1 [0] [("a", "1")]])
    1 [1] [("b", "2")] (by rfl) (by rfl)

/-- C5: a vector of the wrong length makes `add_embedding` fail with the
dimension-mismatch error before any state is touched (`applyOp` leaves the
store exactly as it was), and a query of the wrong length makes `search`
fail the same way (`search` never mutates the store — it is a pure read). -/
theorem C5_dimension_mismatch_rejected (s : VectorStore) (v q : List ℚ)
    (m : Metadata) (id : Int) (k : Nat)
    (hv : v.length ≠ s.dimension) (hq : q.length ≠ s.dimension) :
    s.add_embedding v m id = .error .dimensionMismatch ∧
    applyOp s (.add id v m) = s ∧
    s.search q k = .error .dimensionMismatch := by
  refine ⟨?_, ?_, ?_⟩ <;>
    simp [VectorStore.add_embedding, VectorStore.search, applyOp, hv, hq]

/-- Witness for `C5_dimension_mismatch_rejected`: a 1-vector and a 3-vector
against a dimension-2 store. -/
theorem C5_dimension_mismatch_rejected_witness :
    (VectorStore.empty 2).add_embedding [0] [] 1 =
        .error .dimensionMismatch ∧
    applyOp (VectorStore.empty 2) (.add 1 [0] []) = VectorStore.empty 2 ∧
    (VectorStore.empty 2).search [0, 0, 0] 5 =
        .error .dimensionMismatch :=
  C5_dimension_mismatch_rejected (VectorStore.empty 2) [0] [0, 0, 0] [] 1 5
    (by decide) (by decide)

/-- C7: `remove_embedding` on an absent id is a strict no-op — the state
(ANN structure, id map, and on-disk id map) is returned unchanged and no
error is raised; on a present id it deletes every trace of the id from
both structures and write-through persists the id map. -/
theorem C7_remove_semantics (s : VectorStore) (id : Int) :
    (s.check_embedding_exists id = false → s.remove_embedding id = s) ∧
    (s.check_embedding_exists id = true →
      id ∉ annIds (s.remove_embedding id) ∧
      id ∉ mapKeys (s.remove_embedding id).id_map ∧
      (s.remove_embedding id).disk_id_map =
        (s.remove_embedding id).id_map) := by
  constructor
  · intro hab
    simp [VectorStore.remove_embedding, hab]
  · intro hex
    simp only [VectorStore.remove_embedding, hex, if_true]
    refine ⟨?_, ?_, rfl⟩
    · simp [annIds, VectorStore.save_id_map, mem_map_fst_filter_ne]
    · simp [VectorStore.save_id_map, mem_mapKeys_mapErase]

namespace VectorStore

theorem mem_insHit (x z : Hit) (l : List Hit) :
    z ∈ insHit x l ↔ z = x ∨ z ∈ l := by
  induction l with
  | nil => simp [insHit]
  | cons y ys ih =>
    by_cases hle : x.1 ≤ y.1
    · simp only [insHit, if_pos hle, List.mem_cons]
    · simp only [insHit, if_neg hle, List.mem_cons, ih]
      tauto

theorem pairwise_insHit (x : Hit) (l : List Hit)
    (h : List.Pairwise (fun a b : Hit => a.1 ≤ b.1) l) :
    List.Pairwise (fun a b : Hit => a.1 ≤ b.1) (insHit x l) := by
  induction l with
  | nil => simp [insHit]
  | cons y ys ih =>
    rcases List.pairwise_cons.mp h with ⟨hy, hys⟩
    by_cases hle : x.1 ≤ y.1
    · rw [insHit, if_pos hle]
      refine List.pairwise_cons.mpr ⟨?_, h⟩
      intro z hz
      rcases List.mem_cons.mp hz with rfl | hz'
      · exact hle
      · exact le_trans hle (hy z hz')
    · rw [insHit, if_neg hle]
      refine List.pairwise_cons.mpr ⟨?_, ih hys⟩
      intro z hz
      rcases (mem_insHit x z ys).mp hz with rfl | hz'
      · exact le_of_not_le hle
      · exact hy z hz'

theorem pairwise_sortHits (l : List Hit) :
    List.Pairwise (fun a b : Hit => a.1 ≤ b.1) (sortHits l) := by
  induction l with
  | nil => simp [sortHits]
  | cons x xs ih => exact pairwise_insHit x (sortHits xs) ih

end VectorStore

/-- C3 counterexample: with two records stored at the *same* vector (so
both at distance 0 from the query), `search` reports them in the FAISS
insertion order `[5, 3]`, not in ascending-id order `[3, 5]`: the code does
no sorting of its own at this boundary, so the claimed tie-break by
ascending id is false. -/
theorem C3_tie_break_counterexample :
    (applyOps (VectorStore.empty 1)
        [VSOp.add 5 [0] [("p", "x")], VSOp.add 3 [0] [("p", "y")]]).search
        [0] 2 =
      .ok [⟨[("p", "x")], 0, 5⟩, ⟨[("p", "y")], 0, 3⟩] ∧
    ¬ List.Pairwise
        (fun a b : VectorStore.SearchResult =>
          a.distance < b.distance ∨
            (a.distance = b.distance ∧ a.unique_id ≤ b.unique_id))
        [⟨[("p", "x")], 0, 5⟩, ⟨[("p", "y")], 0, 3⟩] := by
  constructor
  · norm_num [applyOps, applyOp, VectorStore.add_embedding,
      VectorStore.save_id_map, mapInsert, VectorStore.empty,
      VectorStore.search, VectorStore.searchResults, VectorStore.sortHits,
      VectorStore.insHit, VectorStore.sqDist, mapKeys, mapLookup,
      List.filterMap_cons, List.filterMap_nil, Option.map_some,
      Option.map_none]
  · intro hpw
    rcases List.pairwise_cons.mp hpw with ⟨hrel, -⟩
    have := hrel ⟨[("p", "y")], 0, 3⟩ (List.mem_singleton.mpr rfl)
    rcases this with hlt | ⟨-, hle⟩
    · exact absurd hlt (lt_irrefl _)
    · exact absurd hle (by decide)

/-- C3 (amended): for a query of the correct dimension, `search` returns a
list of at most `topK` results sorted by ascending distance; ties between
equal distances follow the insertion order of the underlying FAISS
structure and are *not* broken by ascending id. -/
theorem C3_search_sorted_bounded (s : VectorStore) (q : List ℚ) (k : Nat)
    (hq : q.length = s.dimension) :
    s.search q k = .ok (s.searchResults q k) ∧
    (s.searchResults q k).length ≤ k ∧
    List.Pairwise
      (fun a b : VectorStore.SearchResult => a.distance ≤ b.distance)
      (s.searchResults q k) := by
  have hne : ¬ q.length ≠ s.dimension := by simp [hq]
  refine ⟨by rw [VectorStore.search, if_neg hne], ?_, ?_⟩
  · calc (s.searchResults q k).length
        ≤ (((VectorStore.sortHits
          (s.entries.map (fun e => ((VectorStore.sqDist q e.2 : ℚ), e.1)))).take
            k).filter
          (fun h => h.2 ≠ -1 && (mapKeys s.id_map).contains h.2)).length :=
          List.length_filterMap_le _ _
      _ ≤ ((VectorStore.sortHits
          (s.entries.map (fun e => ((VectorStore.sqDist q e.2 : ℚ), e.1)))).take
            k).length := List.length_filter_le _ _
      _ ≤ k := List.length_take_le _ _
  · have h1 := VectorStore.pairwise_sortHits
      (s.entries.map (fun e => ((VectorStore.sqDist q e.2 : ℚ), e.1)))
    have h2 := h1.sublist (List.take_sublist k _)
    have h3 := h2.filter
      (fun h => h.2 ≠ -1 && (mapKeys s.id_map).contains h.2)
    rw [VectorStore.searchResults, List.pairwise_filterMap]
    refine h3.imp ?_
    intro a b hab r1 hr1 r2 hr2
    rcases Option.map_eq_some'.mp hr1 with ⟨m1, _, hm1⟩
    rcases Option.map_eq_some'.mp hr2 with ⟨m2, _, hm2⟩
    rw [← hm1, ← hm2]
    exact hab

/-- Witness for `C3_search_sorted_bounded`: a dimension-1 query against a
two-record store. -/
theorem C3_search_sorted_bounded_witness :
    (applyOps (VectorStore.empty 1)
        [VSOp.add 5 [0] [("p", "x")], VSOp.add 3 [1] [("p", "y")]]).search
        [0] 2 =
      .ok ((applyOps (VectorStore.empty 1)
        [VSOp.add 5 [0] [("p", "x")], VSOp.add 3 [1] [("p", "y")]]).searchResults
        [0] 2) ∧
    ((applyOps (VectorStore.empty 1)
        [VSOp.add 5 [0] [("p", "x")], VSOp.add 3 [1] [("p", "y")]]).searchResults
        [0] 2).length ≤ 2 ∧
    List.Pairwise
      (fun a b : VectorStore.SearchResult => a.distance ≤ b.distance)
      ((applyOps (VectorStore.empty 1)
        [VSOp.add 5 [0] [("p", "x")], VSOp.add 3 [1] [("p", "y")]]).searchResults
        [0] 2) :=
  C3_search_sorted_bounded
    (applyOps (VectorStore.empty 1)
      [VSOp.add 5 [0] [("p", "x")], VSOp.add 3 [1] [("p", "y")]])
    [0] 2 (by rfl)

/-- Witness for `C7_remove_semantics`: removing absent id 7 from the empty
store is the identity; removing present id 1 erases it from both
structures. -/
theorem C7_remove_semantics_witness :
    ((VectorStore.empty 1).remove_embedding 7 = VectorStore.empty 1) ∧
    (1 ∉ annIds ((applyOps (VectorStore.empty 1)
        [VSOp.add 1 [0] [("a", "1")]]).remove_embedding 1)) :=
  ⟨(C7_remove_semantics (VectorStore.empty 1) 7).1 (by rfl),
   ((C7_remove_semantics
      (applyOps (VectorStore.empty 1) [VSOp.add 1 [0] [("a", "1")]])
      1).2 (by rfl)).1⟩

/-! ## Store initialization (`VectorStore._initialize_store`, C4) -/

/-- The persistence artifacts on disk before construction: the FAISS index
snapshot (`index_path`) and the pickled id map (`id_map_path`); `none`
means the file is absent.  Contents are modelled as already-decoded
values: loading a present, well-formed artifact succeeds. -/
structure DiskArtifacts where
  indexFile : Option (List (Int × List ℚ))
  idMapFile : Option (List (Int × Metadata))
  deriving Repr, DecidableEq

/-- Failure space of initialization.  `_load_existing_store` wraps any
load failure in a `RuntimeError`; no other branch of `_initialize_store`
raises. -/
inductive InitError where
  | loadFailed (msg : String)
  deriving Repr, DecidableEq

/-- `_initialize_store`: if **both** artifacts exist, `_load_existing_store`
reads them; in **every other** case (neither exists, or exactly one does)
`_create_new_store` writes a fresh empty index and a fresh empty id map to
both paths — overwriting whichever single artifact was present.  There is
no corruption check: one-artifact states take the create-new branch. -/
def initializeStore (dimension : Nat) (d : DiskArtifacts) :
    Except InitError (VectorStore × DiskArtifacts) :=
  match d.indexFile, d.idMapFile with
  | some es, some m =>
      .ok ({ dimension := dimension, entries := es, id_map := m,
             disk_id_map := m }, d)
  | _, _ =>
      .ok ({ dimension := dimension, entries := [], id_map := [],
             disk_id_map := [] },
           { indexFile := some [], idMapFile := some [] })

/-- C4 counterexample: with the index snapshot present but the id map
absent, construction does **not** fail fast — it silently returns a fresh
empty store and overwrites the surviving artifact with empty ones. -/
theorem C4_single_artifact_counterexample :
    initializeStore 1 { indexFile := some [(1, [0])], idMapFile := none } =
      .ok ({ dimension := 1, entries := [], id_map := [],
             disk_id_map := [] },
           { indexFile := some [], idMapFile := some [] }) ∧
    ∀ e : InitError,
      initializeStore 1
          { indexFile := some [(1, [0])], idMapFile := none } ≠ .error e := by
  exact ⟨rfl, fun e h => by simp [initializeStore] at h⟩

/-- C4 (amended): when exactly one of the two persistence artifacts exists
on disk, initialization does not fail: `_initialize_store` takes the
create-new branch, returning a fresh empty store and writing fresh empty
artifacts over both paths (the surviving artifact is silently lost). -/
theorem C4_single_artifact_rebuilds (dim : Nat) (d : DiskArtifacts)
    (h : d.indexFile.isSome ≠ d.idMapFile.isSome) :
    initializeStore dim d =
      .ok ({ dimension := dim, entries := [], id_map := [],
             disk_id_map := [] },
           { indexFile := some [], idMapFile := some [] }) := by
  obtain ⟨di, dm⟩ := d
  cases di <;> cases dm <;> simp_all [initializeStore]

/-- Witness for `C4_single_artifact_rebuilds`: only the id map exists. -/
theorem C4_single_artifact_rebuilds_witness :
    initializeStore 3 { indexFile := none, idMapFile := some [(2, [])] } =
      .ok ({ dimension := 3, entries := [], id_map := [],
             disk_id_map := [] },
           { indexFile := some [], idMapFile := some [] }) :=
  C4_single_artifact_rebuilds 3
    { indexFile := none, idMapFile := some [(2, [])] } (by decide)

/-! ## ChangeMonitor debounce (`FileSystemMonitor.EventHandler`, C6) -/

/-- A watchdog filesystem event as seen by the handler. -/
structure FSEvent where
  src_path : String
  is_directory : Bool
  deriving Repr, DecidableEq

/-- `_should_ignore`'s fixed pattern list. -/
def ignorePatterns : List String :=
  ["desktop.ini", "Thumbs.db", ".tmp", ".temp", "~$", ".crdownload", ".part"]

/-- `os.path.basename` (POSIX separator): everything after the last `/`. -/
def basename (path : String) : String :=
  ⟨path.toList.foldl (fun acc c => if c = '/' then [] else acc ++ [c]) []⟩

/-- Contiguous-sublist test on character lists. -/
def charsInfixOf (needle : List Char) : List Char → Bool
  | [] => needle.isEmpty
  | c :: rest => needle.isPrefixOf (c :: rest) || charsInfixOf needle rest

/-- Python's `pattern in filename` substring test. -/
def containsSubstring (pattern filename : String) : Bool :=
  charsInfixOf pattern.toList filename.toList

/-- `_should_ignore`: directories and system/temporary files are dropped
before any debounce logic runs. -/
def should_ignore (e : FSEvent) : Bool :=
  e.is_directory ||
    ignorePatterns.any (fun pat => containsSubstring pat (basename e.src_path))

/-- Python-dict assignment for the `_last_modified : Dict[str, float]` map
(timestamps modelled as exact rationals). -/
def tsInsert (k : String) (v : ℚ) : List (String × ℚ) → List (String × ℚ)
  | [] => [(k, v)]
  | (k', v') :: rest =>
      if k' = k then (k, v) :: rest else (k', v') :: tsInsert k v rest

/-- `self._last_modified.get(path, 0)`. -/
def tsGet (m : List (String × ℚ)) (k : String) : ℚ :=
  match m with
  | [] => 0
  | (k', v) :: rest => if k' = k then v else tsGet rest k

/-- Mutable state of `EventHandler` relevant to `on_modified`, plus the
log of tasks handed to `executor.submit` (each `(path, event_type)`). -/
structure HandlerState where
  last_modified : List (String × ℚ)
  recently_created : List String
  dispatched : List (String × String)
  deriving Repr, DecidableEq

/-- The cooldown interval `self._cooldown = 2` seconds. -/
def cooldown : ℚ := 2

/-- `on_modified(event)` at wall-clock time `now`: ignore filtered paths
and recently-created ones; dispatch a processing task and stamp the path
only when more than `cooldown` seconds have passed since the stamp stored
for the path (0 when absent). -/
def on_modified (s : HandlerState) (e : FSEvent) (now : ℚ) : HandlerState :=
  if should_ignore e then s
  else if s.recently_created.contains e.src_path then s
  else if now - tsGet s.last_modified e.src_path > cooldown then
    { s with
      dispatched := s.dispatched ++ [(e.src_path, "modified")],
      last_modified := tsInsert e.src_path now s.last_modified }
  else s

theorem tsGet_tsInsert_self (k : String) (v : ℚ) (m : List (String × ℚ)) :
    tsGet (tsInsert k v m) k = v := by
  induction m with
  | nil => simp [tsInsert, tsGet]
  | cons hd tl ih =>
    obtain ⟨k', v'⟩ := hd
    by_cases hk : k' = k
    · subst hk
      simp [tsInsert, tsGet]
    · simp [tsInsert, if_neg hk, tsGet, hk, ih]

/-- C6: two `modified` events for the same (supported, non-ignored,
not-recently-created) path, the second arriving less than the cooldown
interval after the first was processed, dispatch exactly one processing
task: the first event submits and stamps the path, the second is dropped
without touching the state. -/
theorem C6_second_event_within_cooldown_dropped (s : HandlerState)
    (e : FSEvent) (t1 t2 : ℚ)
    (hig : should_ignore e = false)
    (hrc : s.recently_created.contains e.src_path = false)
    (h1 : t1 - tsGet s.last_modified e.src_path > cooldown)
    (h2 : t2 - t1 < cooldown) :
    on_modified s e t1 =
      { s with
        dispatched := s.dispatched ++ [(e.src_path, "modified")],
        last_modified := tsInsert e.src_path t1 s.last_modified } ∧
    on_modified (on_modified s e t1) e t2 = on_modified s e t1 := by
  have hrc' : e.src_path ∉ s.recently_created := by simpa using hrc
  have hstep : on_modified s e t1 =
      { s with
        dispatched := s.dispatched ++ [(e.src_path, "modified")],
        last_modified := tsInsert e.src_path t1 s.last_modified } := by
    simp [on_modified, hig, hrc', h1]
  refine ⟨hstep, ?_⟩
  rw [hstep]
  have hlast : tsGet (tsInsert e.src_path t1 s.last_modified) e.src_path =
      t1 := tsGet_tsInsert_self _ _ _
  have hno : ¬ (t2 - t1 > cooldown) := by
    intro hgt
    exact absurd h2 (not_lt.mpr (le_of_lt hgt))
  simp [on_modified, hig, hrc', hlast, hno]

/-- Witness for `C6_second_event_within_cooldown_dropped`: events for
`a.txt` at times 5 and 6 on a fresh handler. -/
theorem C6_second_event_within_cooldown_dropped_witness :
    on_modified { last_modified := [], recently_created := [],
                  dispatched := [] } ⟨"a.txt", false⟩ 5 =
      { last_modified := [("a.txt", 5)], recently_created := [],
        dispatched := [("a.txt", "modified")] } ∧
    on_modified (on_modified
        { last_modified := [], recently_created := [], dispatched := [] }
        ⟨"a.txt", false⟩ 5) ⟨"a.txt", false⟩ 6 =
      on_modified
        { last_modified := [], recently_created := [], dispatched := [] }
        ⟨"a.txt", false⟩ 5 :=
  C6_second_event_within_cooldown_dropped
    { last_modified := [], recently_created := [], dispatched := [] }
    ⟨"a.txt", false⟩ 5 6 (by decide) (by decide)
    (by norm_num [tsGet, cooldown]) (by norm_num [cooldown])

/-! ## QueryEngine (`SearchEngine.search`, C8) -/

/-- Failure space of a query: the embedding call or the store lookup can
raise (query optimization cannot — `optimize_search_query` catches every
exception internally and falls back to the user query, service.py
lines 96-114). -/
inductive EngineError where
  | embeddingFailed (msg : String)
  | storeFailed (e : VSError)
  deriving Repr, DecidableEq

/-- The Gemini optimizer as seen from `SearchEngine`: `config.api_key`
truthiness and the total `optimize_search_query` transform. -/
structure GeminiServiceModel where
  hasApiKey : Bool
  optimize : String → String

/-- `SearchEngine` (src/core/search/search_engine.py): vector store, the
external embedding provider, and the optional Gemini service. -/
structure SearchEngineModel where
  vector_store : VectorStore
  embed_text : String → Except String (List ℚ)
  gemini_service : Option GeminiServiceModel

/-- The query string actually embedded: rewritten only when a Gemini
service is configured, optimization is requested, and an API key is set. -/
def searchEngineQuery (eng : SearchEngineModel) (query : String)
    (optimize_query : Bool) : String :=
  match eng.gemini_service with
  | some g =>
      if optimize_query && g.hasApiKey then g.optimize query else query
  | none => query

/-- The body of `SearchEngine.search`'s `try` block: optimize, embed,
look up. -/
def searchEngineBody (eng : SearchEngineModel) (query : String)
    (top_k : Nat) (optimize_query : Bool) :
    Except EngineError (List VectorStore.SearchResult) :=
  match eng.embed_text (searchEngineQuery eng query optimize_query) with
  | .error msg => .error (.embeddingFailed msg)
  | .ok emb =>
      match eng.vector_store.search emb top_k with
      | .error e => .error (.storeFailed e)
      | .ok r => .ok r

/-- `SearchEngine.search`: the whole body runs inside `try`; any raised
error is logged and converted to the empty result list. -/
def searchEngineSearch (eng : SearchEngineModel) (query : String)
    (top_k : Nat) (optimize_query : Bool) :
    List VectorStore.SearchResult :=
  match searchEngineBody eng query top_k optimize_query with
  | .ok r => r
  | .error _ => []

/-- C8: `SearchEngine.search` never raises — for every engine, query,
`top_k` and optimizer configuration it returns a plain list, and whenever
the optimize/embed/lookup pipeline raises, the error is absorbed into the
empty result list (otherwise the store's results are passed through). -/
theorem C8_search_absorbs_errors (eng : SearchEngineModel) (query : String)
    (top_k : Nat) (optimize_query : Bool) :
    (∃ e, searchEngineBody eng query top_k optimize_query = .error e ∧
      searchEngineSearch eng query top_k optimize_query = []) ∨
    (∃ r, searchEngineBody eng query top_k optimize_query = .ok r ∧
      searchEngineSearch eng query top_k optimize_query = r) := by
  cases h : searchEngineBody eng query top_k optimize_query with
  | error e => exact Or.inl ⟨e, rfl, by simp [searchEngineSearch, h]⟩
  | ok r => exact Or.inr ⟨r, rfl, by simp [searchEngineSearch, h]⟩

/-! ## FileScanner (`scan_directory` / `scan_file`, C9 and C10) -/

/-- What `_extract_content` hands back when it returns a non-empty dict:
the extracted text and the extractor's metadata dict.  `_extract_content`
itself never raises (it catches internally and returns `{}`, modelled as
`none`; a missing `"extracted_text"` key behaves as `""`). -/
structure ExtractResult where
  extracted_text : String
  metadata : Metadata
  deriving Repr, DecidableEq

/-- `ScannedFile` dataclass; the sentinel record uses `None` for the
embedding and the unique id and `{}` for the metadata. -/
structure ScannedFile where
  embedding : Option (List ℚ)
  metadata : Metadata
  unique_id : Option Int
  deriving Repr, DecidableEq

/-- The sentinel `ScannedFile(embedding=None, metadata={}, unique_id=None)`
returned by every failure path of `scan_file`. -/
def sentinelScannedFile : ScannedFile :=
  { embedding := none, metadata := [], unique_id := none }

/-- `ScanResult` dataclass (the `scan_time` wall-clock stamp carries no
behavioural content and is omitted from the model). -/
structure ScanResult where
  scanned_files : List ScannedFile
  scanned_paths : List String
  errors : List String
  deriving Repr, DecidableEq

/-- External collaborators of `FileScanner`: the embedding provider (which
may raise) and the id derivation (SHA-256 of the path reduced mod `10^8`
— a pure external hash, modelled abstractly). -/
structure ScannerEnv where
  embed_text : String → Except String (List ℚ)
  generate_unique_id : String → Int

/-- `FileScanner.SUPPORTED_EXTENSIONS` (keys only; the mime values are
unused by the scanning control flow). -/
def SUPPORTED_EXTENSIONS : List String :=
  [".pdf", ".txt", ".md"]

/-- `os.path.splitext(path)[1]`: the extension of the basename, from its
last dot; leading dots of the basename never start an extension. -/
def splitextExt (path : String) : String :=
  let base := (basename path).toList
  let stripped := base.dropWhile (fun c => c = '.')
  if stripped.contains '.' then
    ⟨'.' :: (stripped.foldl
      (fun acc c => if c = '.' then [] else acc ++ [c]) [])⟩
  else ""

/-- One directory entry as `os.scandir` yields it.  A `file` carries what
`_extract_content` would return for it (`none` = the empty dict `{}`,
covering unsupported mime types and extractor exceptions alike); a `dir`
carries its children (a directory whose name matches a supported extension
still extracts to `{}`, so only the recursion matters); `denied` is an
entry whose processing raises `PermissionError`. -/
inductive FSEntry where
  | file (path : String) (content : Option ExtractResult)
  | dir (path : String) (children : List FSEntry)
  | denied (path : String)

/-- The root handed to `scan_directory` after `Path(root).resolve()`:
absent, unreadable (`os.scandir` raised), or a directory listing. -/
inductive RootFS where
  | missing
  | scandirFailed (msg : String)
  | dir (children : List FSEntry)

mutual
/-- The per-entry body of `scan_directory`'s loop (file_scanner.py lines
185-228): supported files are extracted, embedded and added to the store;
failures append to `errors` and never abort the loop; subdirectories
recurse; returns (new scanned files, new errors, store afterwards). -/
def processEntry (env : ScannerEnv) (vs : VectorStore) :
    FSEntry → (List ScannedFile × List String × VectorStore)
  | .file path content =>
      if SUPPORTED_EXTENSIONS.contains (splitextExt path) then
        let text := (content.map ExtractResult.extracted_text).getD ""
        let meta := (content.map ExtractResult.metadata).getD []
        if text ≠ "" then
          match env.embed_text text with
          | .error msg =>
              ([], ["Error processing '" ++ path ++ "': " ++ msg], vs)
          | .ok emb =>
              match vs.add_embedding emb meta (env.generate_unique_id path) with
              | .error _ =>
                  ([], ["Error processing '" ++ path ++
                    "': Failed to add embedding"], vs)
              | .ok vs' =>
                  ([{ embedding := some emb, metadata := meta,
                      unique_id := some (env.generate_unique_id path) }],
                   [], vs')
        else ([], [], vs)
      else ([], [], vs)
  | .dir _ children => processEntries env vs children
  | .denied path =>
      ([], ["Permission denied: Cannot access '" ++ path ++ "'"], vs)

/-- Fold `processEntry` over a listing in directory order, threading the
store and concatenating files and errors. -/
def processEntries (env : ScannerEnv) (vs : VectorStore) :
    List FSEntry → (List ScannedFile × List String × VectorStore)
  | [] => ([], [], vs)
  | e :: rest =>
      let r1 := processEntry env vs e
      let r2 := processEntries env r1.2.2 rest
      (r1.1 ++ r2.1, r1.2.1 ++ r2.2.1, r2.2.2)
end

/-- `scan_directory(root_path)` (file_scanner.py lines 159-241):
`root_path` is the string the caller passed, `resolved_path` the result of
`Path(root_path).resolve()`.  A missing root returns
`ScanResult([], now, [root_path], [error_msg])` — an error entry, not an
exception; an `os.scandir` failure is caught by the outer handler; a
readable directory is walked depth-first. -/
def scan_directory (env : ScannerEnv) (root_path resolved_path : String)
    (root : RootFS) (vs : VectorStore) : ScanResult × VectorStore :=
  match root with
  | .missing =>
      ({ scanned_files := [], scanned_paths := [root_path],
         errors := ["Error: Path '" ++ resolved_path ++
           "' does not exist"] }, vs)
  | .scandirFailed msg =>
      ({ scanned_files := [], scanned_paths := [root_path],
         errors := ["Error scanning '" ++ resolved_path ++ "': " ++
           msg] }, vs)
  | .dir children =>
      let r := processEntries env vs children
      ({ scanned_files := r.1, scanned_paths := [root_path],
         errors := r.2.1 }, r.2.2)

/-- `scan_file(file_path)` (file_scanner.py lines 243-307): unsupported
extension, empty extraction dict, empty extracted text, a raising embed
call, or a raising store add all yield the sentinel record; on success the
existing id is removed first (remove-then-add lives *here*), the new
embedding is added, and the populated record is returned. -/
def scan_file (env : ScannerEnv) (file_path : String)
    (content : Option ExtractResult) (vs : VectorStore) :
    ScannedFile × VectorStore :=
  if SUPPORTED_EXTENSIONS.contains (splitextExt file_path) then
    match content with
    | none => (sentinelScannedFile, vs)
    | some c =>
      if c.extracted_text = "" then (sentinelScannedFile, vs)
      else
        match env.embed_text c.extracted_text with
        | .error _ => (sentinelScannedFile, vs)
        | .ok emb =>
            let uid := env.generate_unique_id file_path
            let vs1 := if vs.check_embedding_exists uid
                       then vs.remove_embedding uid else vs
            match vs1.add_embedding emb c.metadata uid with
            | .error _ => (sentinelScannedFile, vs1)
            | .ok vs2 =>
                ({ embedding := some emb, metadata := c.metadata,
                   unique_id := some uid }, vs2)
  else (sentinelScannedFile, vs)

/-- C9: scanning a root that does not exist after canonical resolution
returns (never raises) a `ScanResult` with an empty scanned-files list
whose only content is the single error entry naming the missing resolved
path; the vector store is untouched. -/
theorem C9_missing_root_returns_single_error (env : ScannerEnv)
    (root_path resolved_path : String) (vs : VectorStore) :
    (scan_directory env root_path resolved_path RootFS.missing
        vs).1.scanned_files = [] ∧
    (scan_directory env root_path resolved_path RootFS.missing
        vs).1.errors =
      ["Error: Path '" ++ resolved_path ++ "' does not exist"] ∧
    ((scan_directory env root_path resolved_path RootFS.missing
        vs).1.errors).length = 1 ∧
    (scan_directory env root_path resolved_path RootFS.missing vs).2 =
      vs :=
  ⟨rfl, rfl, rfl, rfl⟩

/-- C10: `scan_file` never raises — for every input it returns either the
sentinel record (every failure path: unsupported extension, empty
extraction, empty text, embed error, add error) or a fully populated
record for a successful extraction and embedding; failures are visible to
the caller only as the sentinel. -/
theorem C10_scan_file_sentinel_or_populated (env : ScannerEnv)
    (fp : String) (content : Option ExtractResult) (vs : VectorStore) :
    (scan_file env fp content vs).1 = sentinelScannedFile ∨
    ∃ c emb, content = some c ∧
      env.embed_text c.extracted_text = .ok emb ∧
      (scan_file env fp content vs).1 =
        { embedding := some emb, metadata := c.metadata,
          unique_id := some (env.generate_unique_id fp) } := by
  by_cases hs : splitextExt fp ∈ SUPPORTED_EXTENSIONS
  · cases content with
    | none => left; simp [scan_file, hs]
    | some c =>
      by_cases ht : c.extracted_text = ""
      · left; simp [scan_file, hs, ht]
      · cases he : env.embed_text c.extracted_text with
        | error msg => left; simp [scan_file, hs, ht, he]
        | ok emb =>
          cases ha : (if vs.check_embedding_exists
                (env.generate_unique_id fp) then
              vs.remove_embedding (env.generate_unique_id fp)
            else vs).add_embedding emb c.metadata
              (env.generate_unique_id fp) with
          | error e => left; simp [scan_file, hs, ht, he, ha]
          | ok vs2 =>
              right
              exact ⟨c, emb, rfl, he, by simp [scan_file, hs, ht, he, ha]⟩
  · left; simp [scan_file, hs]
